import Mathlib

/-!
Shallow embedding of the tensor-utility layer of the tt-metal tensor
runtime (`ttnn/cpp/ttnn/tensor/tensor_utils.cpp`), together with theorems
checking the natural-language specification of that file.

Machine integers of the C++ source (`uint32_t`, `int64_t`, element values)
are modelled as `Nat` / `Int`; flat element buffers are modelled as total
functions `Nat → Int` (an element type abstracting `bfloat16`, `float`,
`uint32_t`, ... — the repacking routines only move elements, they never
compute with them) or as `List Int` where the source works with a typed
host vector.  Fallible code (`TT_THROW` / `TT_FATAL` / `TT_ASSERT`) is
modelled with `Except String`, the message identifying the throw site.
-/

namespace TensorUtils

/-- The data-type enumeration of the tensor library (`DataType` in
`types.hpp`). -/
inductive DataType where
  | BFLOAT16
  | FLOAT32
  | UINT32
  | UINT16
  | UINT8
  | INT32
  | BFLOAT8_B
  | BFLOAT4_B
  | INVALID
deriving DecidableEq, Repr, BEq

/-- The physical layout enumeration (`Layout` in `types.hpp`). -/
inductive Layout where
  | ROW_MAJOR
  | TILE
deriving DecidableEq, Repr

/-- The storage-kind enumeration (`StorageType` in `types.hpp`). -/
inductive StorageType where
  | OWNED
  | BORROWED
  | DEVICE
  | MULTI_DEVICE
  | MULTI_DEVICE_HOST
deriving DecidableEq, Repr

/-- The closed tagged union of physical storage variants (`Storage` in
`types.hpp`).  Host-resident buffers carry their element values; device
buffers are identified by an opaque buffer id. -/
inductive Storage where
  | Owned (buffer : List Int)
  | Borrowed (buffer : List Int)
  | Device (bufferId : Nat)
  | MultiDevice (bufferIds : List Nat)
  | MultiDeviceHost (buffers : List (List Int))
deriving DecidableEq, Repr

/-- The storage tag of a storage variant (`Tensor::storage_type()`). -/
def storage_type : Storage → StorageType
  | .Owned _ => .OWNED
  | .Borrowed _ => .BORROWED
  | .Device _ => .DEVICE
  | .MultiDevice _ => .MULTI_DEVICE
  | .MultiDeviceHost _ => .MULTI_DEVICE_HOST

/-- The metadata of a tensor (`TensorSpec`): logical shape, data type,
layout. -/
structure TensorSpec where
  shape : List Nat
  dtype : DataType
  layout : Layout
deriving DecidableEq, Repr

/-- The host-side tensor handle (`Tensor`): a storage variant plus its
spec and the bookkeeping counter `num_shards_to_be_populated` from
`tensor_attributes`. -/
structure Tensor where
  storage : Storage
  spec : TensorSpec
  numShardsToBePopulated : Nat
deriving DecidableEq, Repr

/-- Worker execution modes (`WorkExecutorMode`). -/
inductive WorkExecutorMode where
  | SYNCHRONOUS
  | ASYNCHRONOUS
deriving DecidableEq, Repr

/-! ## Shard division (`compute_shard_division_spec`, lines 686-695) -/

/-- `tt::div_up(n, d) = (n + d - 1) / d` (ceiling division, from
`tt_metal` math utilities). -/
def div_up (n d : Nat) : Nat := (n + d - 1) / d

/-- A 2D size `{height, width}` (`Size`). -/
structure Size where
  height : Nat
  width : Nat
deriving DecidableEq, Repr

/-- `ShardDivisionSpec` — shard grid counts and last-shard extents. -/
structure ShardDivisionSpec where
  num_shards_height : Nat
  last_shard_height : Nat
  num_shards_width : Nat
  last_shard_width : Nat
deriving DecidableEq, Repr

/-- `compute_shard_division_spec` (tensor_utils.cpp, lines 686-695),
translated clause by clause. -/
def compute_shard_division_spec (shape shard_shape : Size) : ShardDivisionSpec :=
  { num_shards_height := div_up shape.height shard_shape.height
    last_shard_height :=
      if shape.height % shard_shape.height > 0 then shape.height % shard_shape.height
      else shard_shape.height
    num_shards_width := div_up shape.width shard_shape.width
    last_shard_width :=
      if shape.width % shard_shape.width > 0 then shape.width % shard_shape.width
      else shard_shape.width }

/-! ## Defensive copy of borrowed tensors
(`copy_borrowed_tensor_in_async_mode`, lines 653-678) -/

/-- `copy_borrowed_tensor_in_async_mode` (tensor_utils.cpp, lines 653-678).
The copy is skipped when the worker runs synchronously or the tensor has
more than one shard to be populated; otherwise a tensor with `Borrowed`
storage is rebuilt with freshly allocated `Owned` storage holding a copy
of the borrowed elements and the same tensor spec
(`Tensor(OwnedStorage{owned_buf}, tensor.get_tensor_spec())`).  The input
tensor is taken by const reference and never mutated, which the pure
embedding reflects. -/
def copy_borrowed_tensor_in_async_mode (worker_mode : WorkExecutorMode) (tensor : Tensor) :
    Tensor :=
  if worker_mode = .SYNCHRONOUS ∨ tensor.numShardsToBePopulated > 1 then tensor
  else if h : storage_type tensor.storage = .BORROWED then
    match tensor.storage with
    | .Borrowed borrowed_buffer =>
        { storage := .Owned borrowed_buffer, spec := tensor.spec, numShardsToBePopulated := 1 }
    | s => tensor
  else tensor

/-! ## Storage dispatch of the layout-conversion entry point
(`convert_tensor`, lines 15-34) -/

/-- Modelled from the spec: `ttnn::distributed::is_multi_device_tensor`
(defined outside the sources at hand) — a tensor is multi-device when its
storage tag is `MULTI_DEVICE` or `MULTI_DEVICE_HOST`. -/
def is_multi_device_tensor (t : Tensor) : Bool :=
  storage_type t.storage == .MULTI_DEVICE || storage_type t.storage == .MULTI_DEVICE_HOST

/-- The `std::visit` body of `convert_tensor` (lines 17-30): host-resident
`Owned`/`Borrowed` storage hands its typed buffer to `compute`; every
other storage variant throws `"Unsupported storage type"`. -/
def convert_tensor_visit {α : Type} (compute : List Int → α) : Storage → Except String α
  | .Owned buffer => .ok (compute buffer)
  | .Borrowed buffer => .ok (compute buffer)
  | _ => .error "Unsupported storage type"

/-- Modelled from the spec: the per-shard storages enumerated when
`transform` maps a conversion over a multi-device tensor — device-resident
shards for `MultiDevice` storage, owned host shards for
`MultiDeviceHost`. -/
def shard_storages : Storage → List Storage
  | .MultiDevice bufferIds => bufferIds.map .Device
  | .MultiDeviceHost buffers => buffers.map .Owned
  | s => [s]

/-- `convert_tensor` (lines 15-34): a multi-device tensor runs the visit
over every shard through `transform`; a single tensor runs it directly. -/
def convert_tensor {α : Type} (compute : List Int → α) (input_tensor : Tensor) :
    Except String (List α) :=
  if is_multi_device_tensor input_tensor then
    (shard_storages input_tensor.storage).mapM (convert_tensor_visit compute)
  else (convert_tensor_visit compute input_tensor.storage).map (fun a => [a])

/-! ## Reshape wildcard inference (`infer_dims_for_reshape`, lines 483-525) -/

/-- The `int32 → uint32` narrowing applied when the requested shape is
copied into the `uint32` result vector (`std::copy` into
`SmallVector<uint32_t>`). -/
def uint32_cast (x : Int) : Nat := (x % 4294967296).toNat

/-- The scanning loop of `infer_dims_for_reshape` (lines 488-505): records
the index of a `-1` wildcard — throwing on a second one — whether a zero
dimension was seen, and the running product of the non-wildcard
entries. -/
def reshape_scan : List Int → Option Nat → Bool → Int → Nat →
    Except String (Option Nat × Bool × Int)
  | [], index_of_negative_1, has_zero, new_volume, _ =>
      .ok (index_of_negative_1, has_zero, new_volume)
  | x :: rest, index_of_negative_1, has_zero, new_volume, index =>
      if x = -1 then
        match index_of_negative_1 with
        | some _ => .error "Shape cannot have more than 1 elements that is set to -1!"
        | none => reshape_scan rest (some index) has_zero new_volume (index + 1)
      else
        reshape_scan rest index_of_negative_1 (has_zero || decide (x = 0)) (new_volume * x)
          (index + 1)

/-- `infer_dims_for_reshape` (lines 483-525), over the tensor's logical
volume.  `TT_THROW` / `TT_FATAL` sites become errors (messages without
the interpolated shape text); the C++ `%` and `/` on `int64_t` truncate
toward zero, hence `Int.tmod` / `Int.tdiv`. -/
def infer_dims_for_reshape (old_volume : Int) (shape : List Int) :
    Except String (List Nat) :=
  match reshape_scan shape none false 1 0 with
  | .error e => .error e
  | .ok (index_of_negative_1, has_zero, new_volume) =>
    if has_zero && index_of_negative_1.isSome then
      .error "cannot reshape tensor of 0 elements: the unspecified dimension size -1 can be any value and is ambiguous"
    else
      match index_of_negative_1 with
      | none =>
          if new_volume = old_volume then .ok (shape.map uint32_cast)
          else .error "Invalid arguments to reshape"
      | some i =>
          if Int.tmod old_volume new_volume = 0 then
            .ok ((shape.map uint32_cast).set i (uint32_cast (Int.tdiv old_volume new_volume)))
          else .error "Invalid arguments to reshape"

/-! ## Multi-device transform (`transform`, lines 537-545) -/

/-- The distribution configuration of a multi-device tensor
(`DistributedTensorConfig`), kept opaque: the transform helper only
carries it through unchanged. -/
structure DistributedTensorConfig where
  configId : Nat
deriving DecidableEq, Repr

/-- A tensor with multi-device storage, presented as its ordered list of
per-device/per-shard tensors together with its storage tag and its
distribution configuration. -/
structure MultiDeviceTensor where
  shards : List Tensor
  storageType : StorageType
  distConfig : DistributedTensorConfig
deriving DecidableEq, Repr

/-- Modelled from the spec:
`ttnn::distributed::get_tensors_from_multi_device_storage` (defined
outside the sources at hand) — the ordered enumeration of the physical
shard tensors of a multi-device tensor. -/
def get_tensors_from_multi_device_storage (t : MultiDeviceTensor) : List Tensor :=
  t.shards

/-- Modelled from the spec: `ttnn::distributed::create_multi_device_tensor`
(defined outside the sources at hand) — reassembles shard tensors into a
multi-device tensor with the given storage tag and distribution
configuration. -/
def create_multi_device_tensor (shards : List Tensor) (st : StorageType)
    (cfg : DistributedTensorConfig) : MultiDeviceTensor :=
  { shards := shards, storageType := st, distConfig := cfg }

/-- Modelled from the spec:
`ttnn::distributed::get_distributed_tensor_config_from_tensor` (defined
outside the sources at hand). -/
def get_distributed_tensor_config_from_tensor (t : MultiDeviceTensor) :
    DistributedTensorConfig := t.distConfig

/-- `transform` (tensor_utils.cpp, lines 537-545): apply `transform_func`
to every shard in order (`std::transform` into a same-sized output
vector) and reassemble with the input tensor's storage tag and
distribution configuration. -/
def transform (tensor : MultiDeviceTensor) (transform_func : Tensor → Tensor) :
    MultiDeviceTensor :=
  create_multi_device_tensor
    ((get_tensors_from_multi_device_storage tensor).map transform_func)
    tensor.storageType
    (get_distributed_tensor_config_from_tensor tensor)

/-! ## Layout-conversion engine -/

/-- `constants::TILE_HEIGHT`. -/
def TILE_HEIGHT : Nat := 32

/-- `constants::TILE_WIDTH`. -/
def TILE_WIDTH : Nat := 32

/-- A host tensor as the layout-conversion engine sees it: shape, the
dtype label it is tagged with, layout, and the flat element buffer.
Elements abstract the C++ element types (`bfloat16`, `float`,
`uint32_t`, ...): the repacking routines only move elements. -/
structure ConvTensor where
  shape : List Nat
  dtype : DataType
  layout : Layout
  data : Nat → Int

/-- Pointwise update of a flat buffer (one `output_buffer[i] = v`
store). -/
def bufSet (b : Nat → Int) (i : Nat) (v : Int) : Nat → Int :=
  fun j => if j = i then v else b j

/-- Run a list of `(index, value)` writes left to right — the embedding
of the nested copy loops of the conversion routines, starting from the
zero-initialized buffer `owned_buffer::create` hands out. -/
def writeAll (init : Nat → Int) (writes : List (Nat × Int)) : Nat → Int :=
  writes.foldl (fun b p => bufSet b p.1 p.2) init

/-- The guard
`TT_FATAL((output_dtype != BFLOAT8_B) || (output_dtype != BFLOAT4_B), "Unsupported output datatype")`
on the non-`float` path of `create_tensor_from_owned_buffer`
(lines 77-79), exactly as written. -/
def nonfloat_packed_guard (output_dtype : DataType) : Bool :=
  (output_dtype != .BFLOAT8_B) || (output_dtype != .BFLOAT4_B)

/-- `create_tensor_from_owned_buffer` (lines 59-83).  `to_tile` abstracts
`Tensor::to(Layout::TILE)` (the row-major→tile repacking, defined outside
this file); `pack_bfp8` / `pack_bfp4` abstract
`pack_fp32_vec_as_bfp8_tiles` / `pack_fp32_vec_as_bfp4_tiles`
(quantization passes, also external).  `is_float_T` is the
`if constexpr (std::is_same<T, float>)` test on the buffer element
type. -/
def create_tensor_from_owned_buffer (is_float_T : Bool)
    (to_tile pack_bfp8 pack_bfp4 : (Nat → Int) → (Nat → Int))
    (buf : Nat → Int) (output_dtype : DataType) (output_shape : List Nat) :
    Except String ConvTensor :=
  if is_float_T then
    if output_dtype = .BFLOAT8_B ∨ output_dtype = .BFLOAT4_B then
      .ok { shape := output_shape, dtype := output_dtype, layout := .TILE,
            data := (if output_dtype = .BFLOAT8_B then pack_bfp8 else pack_bfp4)
              (to_tile buf) }
    else
      .ok { shape := output_shape, dtype := output_dtype, layout := .TILE,
            data := to_tile buf }
  else
    if nonfloat_packed_guard output_dtype then
      .ok { shape := output_shape, dtype := output_dtype, layout := .TILE,
            data := to_tile buf }
    else .error "Unsupported output datatype"

/-- The dtype-keyed dispatch of `convert_tensor_to_tiled_layout_common`
(lines 52-56): look the input dtype up in the function map — throwing
`"Unsupported data type"` when absent — and call the entry with
`output_dtype.value_or(input_dtype)`. -/
def tiled_layout_dispatch {α : Type} (input_dtype : DataType)
    (output_dtype : Option DataType)
    (function_map : DataType → Option (DataType → Except String α)) :
    Except String α :=
  match function_map input_dtype with
  | none => .error "Unsupported data type"
  | some f => f (output_dtype.getD input_dtype)

/-- `convert_tensor_to_tiled_layout_common` (lines 35-57): requires
row-major input layout; a packed output dtype additionally requires a
`FLOAT32` input dtype (the `TT_ASSERT` on line 47; the `else` assert on
line 49 compares the input dtype with itself and can never fail); then
dispatches on the input dtype. -/
def convert_tensor_to_tiled_layout_common {α : Type} (input_dtype : DataType)
    (input_layout : Layout) (output_dtype : Option DataType)
    (function_map : DataType → Option (DataType → Except String α)) :
    Except String α :=
  if input_layout ≠ .ROW_MAJOR then
    .error "Tensor(weight/bias) should be in row major layout for conversion to tilized layout."
  else
    match output_dtype with
    | some od =>
        if (od = .BFLOAT8_B ∨ od = .BFLOAT4_B) ∧ input_dtype ≠ .FLOAT32 then
          .error "TT_ASSERT input_tensor.get_dtype() == DataType::FLOAT32"
        else tiled_layout_dispatch input_dtype output_dtype function_map
    | none => tiled_layout_dispatch input_dtype output_dtype function_map

/-- `to_weight_tile_layout` (lines 122-160) for a weight of legacy shape
`[O, Cin, kH, kW]` (`w_shape[0..3]`): pad the `O`-wide matrix columns to
a multiple of `in1_block_w * TILE_WIDTH`, the `Cin*kH*kW`-high rows to a
multiple of `in1_block_h * TILE_HEIGHT`, and remap every weight element
into the 2D matrix by the closed-form index arithmetic of the source's
four nested loops. -/
def to_weight_tile_layout (is_float_T : Bool)
    (to_tile pack_bfp8 pack_bfp4 : (Nat → Int) → (Nat → Int))
    (O Cin kH kW in1_block_h in1_block_w : Nat) (input : Nat → Int)
    (output_dtype : DataType) : Except String ConvTensor :=
  let in1_block_w_datums := in1_block_w * TILE_WIDTH
  let weight_matrix_cols :=
    if O % in1_block_w_datums ≠ 0 then div_up O in1_block_w_datums * in1_block_w_datums
    else O
  let in1_block_h_datums := in1_block_h * TILE_HEIGHT
  let weight_matrix_rows :=
    if Cin * kH * kW % in1_block_h_datums ≠ 0 then
      div_up (Cin * kH * kW) in1_block_h_datums * in1_block_h_datums
    else Cin * kH * kW
  let output_shape := [1, 1, weight_matrix_rows, weight_matrix_cols]
  let writes := (List.range kH).flatMap fun r =>
    (List.range kW).flatMap fun s =>
      (List.range Cin).flatMap fun c =>
        (List.range O).map fun k =>
          (k + c * weight_matrix_cols + s * Cin * weight_matrix_cols +
             r * kW * Cin * weight_matrix_cols,
           input (k * Cin * kH * kW + c * kH * kW + r * kW + s))
  create_tensor_from_owned_buffer is_float_T to_tile pack_bfp8 pack_bfp4
    (writeAll (fun _ => 0) writes) output_dtype output_shape

/-- `convert_conv_weight_tensor_to_tiled_layout` (lines 164-177): the
fixed dtype dispatch map holds `BFLOAT16`, `FLOAT32` and `UINT32` — the
`FLOAT32` instantiation is the one whose element type is C++ `float`. -/
def convert_conv_weight_tensor_to_tiled_layout
    (to_tile pack_bfp8 pack_bfp4 : (Nat → Int) → (Nat → Int))
    (input_dtype : DataType) (input_layout : Layout)
    (O Cin kH kW in1_block_h in1_block_w : Nat) (input : Nat → Int)
    (output_dtype : Option DataType) : Except String ConvTensor :=
  convert_tensor_to_tiled_layout_common input_dtype input_layout output_dtype
    (fun d =>
      match d with
      | .BFLOAT16 => some (to_weight_tile_layout false to_tile pack_bfp8 pack_bfp4
          O Cin kH kW in1_block_h in1_block_w input)
      | .FLOAT32 => some (to_weight_tile_layout true to_tile pack_bfp8 pack_bfp4
          O Cin kH kW in1_block_h in1_block_w input)
      | .UINT32 => some (to_weight_tile_layout false to_tile pack_bfp8 pack_bfp4
          O Cin kH kW in1_block_h in1_block_w input)
      | _ => none)

/-- `to_weight_tile_layout_block_sharded` (lines 179-231): asserts that
the output channels (`weight_matrix_cols = w_shape[0]`) and the input
channels (`w_shape[1]`) divide evenly into `num_channel_shards`, pads
each shard's width/height to tile multiples, and remaps elements by the
source's six nested loops. -/
def to_weight_tile_layout_block_sharded (is_float_T : Bool)
    (to_tile pack_bfp8 pack_bfp4 : (Nat → Int) → (Nat → Int))
    (O Cin kH kW num_channel_shards : Nat) (input : Nat → Int)
    (output_dtype : DataType) : Except String ConvTensor :=
  if O % num_channel_shards ≠ 0 then
    .error "TT_ASSERT weight_matrix_cols % num_channel_shards == 0"
  else
    let conv_output_shard_width := O / num_channel_shards
    let conv_output_shard_width_padded := div_up conv_output_shard_width TILE_WIDTH * TILE_WIDTH
    let weight_matrix_cols :=
      if conv_output_shard_width < conv_output_shard_width_padded then
        conv_output_shard_width_padded * num_channel_shards
      else O
    if Cin % num_channel_shards ≠ 0 then
      .error "TT_ASSERT w_shape[1] % num_channel_shards == 0"
    else
      let conv_input_shard_width := Cin / num_channel_shards
      let weight_block_height := conv_input_shard_width * kH * kW
      let weight_block_height_padded := div_up weight_block_height TILE_HEIGHT * TILE_HEIGHT
      let weight_matrix_rows :=
        if weight_block_height < weight_block_height_padded then
          weight_block_height_padded * num_channel_shards
        else Cin * kH * kW
      let output_shape := [1, 1, weight_matrix_rows, weight_matrix_cols]
      let writes := (List.range num_channel_shards).flatMap fun ic =>
        (List.range kH).flatMap fun r =>
          (List.range kW).flatMap fun s =>
            (List.range conv_input_shard_width).flatMap fun c_s =>
              (List.range num_channel_shards).flatMap fun oc =>
                (List.range conv_output_shard_width).map fun k_s =>
                  (oc * conv_output_shard_width_padded + k_s + c_s * weight_matrix_cols +
                     s * conv_input_shard_width * weight_matrix_cols +
                     r * kW * conv_input_shard_width * weight_matrix_cols +
                     ic * weight_block_height_padded * weight_matrix_cols,
                   input ((oc * conv_output_shard_width + k_s) * Cin * kH * kW +
                     (ic * conv_input_shard_width + c_s) * kH * kW + r * kW + s))
      create_tensor_from_owned_buffer is_float_T to_tile pack_bfp8 pack_bfp4
        (writeAll (fun _ => 0) writes) output_dtype output_shape

/-- `convert_conv_weight_tensor_to_tiled_layout_block_sharded`
(lines 235-245), dispatching over `BFLOAT16`, `FLOAT32`, `UINT32`. -/
def convert_conv_weight_tensor_to_tiled_layout_block_sharded
    (to_tile pack_bfp8 pack_bfp4 : (Nat → Int) → (Nat → Int))
    (input_dtype : DataType) (input_layout : Layout)
    (O Cin kH kW num_channel_shards : Nat) (input : Nat → Int)
    (output_dtype : Option DataType) : Except String ConvTensor :=
  convert_tensor_to_tiled_layout_common input_dtype input_layout output_dtype
    (fun d =>
      match d with
      | .BFLOAT16 => some (to_weight_tile_layout_block_sharded false to_tile pack_bfp8
          pack_bfp4 O Cin kH kW num_channel_shards input)
      | .FLOAT32 => some (to_weight_tile_layout_block_sharded true to_tile pack_bfp8
          pack_bfp4 O Cin kH kW num_channel_shards input)
      | .UINT32 => some (to_weight_tile_layout_block_sharded false to_tile pack_bfp8
          pack_bfp4 O Cin kH kW num_channel_shards input)
      | _ => none)

/-- `to_bias_tile_layout_block_sharded` (lines 247-278) for a bias of
legacy shape `[b0, b1, b2, b3]`: asserts the three leading dimensions are
1; the divisibility assert on the bias columns is **commented out in the
source** (`/*TT_ASSERT(bias_matrix_cols % num_channel_shards == 0);*/`),
so the per-shard width is the floor `b3 / num_channel_shards` and the
copy loop proceeds unconditionally. -/
def to_bias_tile_layout_block_sharded (is_float_T : Bool)
    (to_tile pack_bfp8 pack_bfp4 : (Nat → Int) → (Nat → Int))
    (b0 b1 b2 b3 num_channel_shards : Nat) (input : Nat → Int)
    (output_dtype : DataType) : Except String ConvTensor :=
  if ¬(b0 = 1 ∧ b1 = 1 ∧ b2 = 1) then
    .error "TT_ASSERT b_shape[0] == 1 && b_shape[1] == 1 && b_shape[2] == 1"
  else
    let conv_output_shard_width := b3 / num_channel_shards
    let conv_output_shard_width_padded := div_up conv_output_shard_width TILE_WIDTH * TILE_WIDTH
    let bias_matrix_cols :=
      if conv_output_shard_width < conv_output_shard_width_padded then
        conv_output_shard_width_padded * num_channel_shards
      else b3
    let bias_matrix_rows := 32
    let output_shape := [1, 1, bias_matrix_rows, bias_matrix_cols]
    let writes := (List.range num_channel_shards).flatMap fun oc =>
      (List.range conv_output_shard_width).map fun k_s =>
        (oc * conv_output_shard_width_padded + k_s,
         input (oc * conv_output_shard_width + k_s))
    create_tensor_from_owned_buffer is_float_T to_tile pack_bfp8 pack_bfp4
      (writeAll (fun _ => 0) writes) output_dtype output_shape

/-- `convert_conv_bias_tensor_to_tiled_layout_block_sharded`
(lines 282-294), dispatching over `BFLOAT16`, `FLOAT32`, `UINT32`. -/
def convert_conv_bias_tensor_to_tiled_layout_block_sharded
    (to_tile pack_bfp8 pack_bfp4 : (Nat → Int) → (Nat → Int))
    (input_dtype : DataType) (input_layout : Layout)
    (b0 b1 b2 b3 num_channel_shards : Nat) (input : Nat → Int)
    (output_dtype : Option DataType) : Except String ConvTensor :=
  convert_tensor_to_tiled_layout_common input_dtype input_layout output_dtype
    (fun d =>
      match d with
      | .BFLOAT16 => some (to_bias_tile_layout_block_sharded false to_tile pack_bfp8
          pack_bfp4 b0 b1 b2 b3 num_channel_shards input)
      | .FLOAT32 => some (to_bias_tile_layout_block_sharded true to_tile pack_bfp8
          pack_bfp4 b0 b1 b2 b3 num_channel_shards input)
      | .UINT32 => some (to_bias_tile_layout_block_sharded false to_tile pack_bfp8
          pack_bfp4 b0 b1 b2 b3 num_channel_shards input)
      | _ => none)

/-! ## Grouped-weight zero-pad
(`conv_group_weight_zero_pad_helper` /
`convert_conv_weight_tensor_to_grouped_layout`, lines 316-437) -/

/-- Modelled from the spec: `compute_strides` (declared in
`tensor_utils.hpp`, defined outside the sources at hand) — the standard
right-to-left cumulative product of the shape. -/
def compute_strides : List Nat → List Nat
  | [] => []
  | _ :: rest => rest.prod :: compute_strides rest

/-- Modelled from the spec: `compute_flat_indices` (declared in
`tensor_utils.hpp`, defined outside the sources at hand) — the flat
row-major index: the dot product of the coordinate vector with the
stride vector. -/
def compute_flat_indices (indices strides : List Nat) : Nat :=
  (List.zipWith (fun a b => a * b) indices strides).sum

/-- The `(index, value)` stores issued by the four nested loops of
`conv_group_weight_zero_pad_helper` (lines 316-359) for an original
weight shape `[O, C, kH, kW]` and output shape
`[O, C * num_groups, kH, kW]`: each output channel's original
input-channel slice goes to input-channel offset `group_id * C`,
`group_id = min(curr_batch_idx / (O / num_groups), num_groups - 1)`. -/
def grouped_writes (O C kH kW num_groups : Nat) (input : Nat → Int) :
    List (Nat × Int) :=
  (List.range O).flatMap fun curr_batch_idx =>
    (List.range C).flatMap fun j =>
      (List.range kH).flatMap fun k =>
        (List.range kW).map fun m =>
          let group_size := O / num_groups
          let group_index := curr_batch_idx / group_size
          let group_id := min group_index (num_groups - 1)
          let new_channel_idx := group_id * C + j
          (compute_flat_indices [curr_batch_idx, new_channel_idx, k, m]
             (compute_strides [O, C * num_groups, kH, kW]),
           input (compute_flat_indices [curr_batch_idx, j, k, m]
             (compute_strides [O, C, kH, kW])))

/-- The write loop of `conv_group_weight_zero_pad_helper` over the
zero-initialized output buffer. -/
def conv_group_weight_zero_pad_helper (O C kH kW num_groups : Nat) (input : Nat → Int) :
    Nat → Int :=
  writeAll (fun _ => 0) (grouped_writes O C kH kW num_groups input)

/-- `convert_conv_weight_tensor_to_grouped_layout` (lines 400-437): the
output shape doubles the channel dimension to
`original_shape[1] * num_groups`, and the dtype dispatch map sends every
one of its seven supported dtypes to `conv_group_weight_zero_pad_helper`
(instantiated at the matching element type, which the abstract element
embedding collapses); the `output_dtype` relabeling (`BFLOAT8_B →
FLOAT32`) does not affect element placement, so the embedding returns
shape and repacked buffer. -/
def convert_conv_weight_tensor_to_grouped_layout (O C kH kW num_groups : Nat)
    (input : Nat → Int) : List Nat × (Nat → Int) :=
  ([O, C * num_groups, kH, kW],
   conv_group_weight_zero_pad_helper O C kH kW num_groups input)

/-- Ceiling division, written the way the spec states it:
`h / sh` rounded up. -/
lemma div_up_eq_ceil (h sh : Nat) (hsh : 0 < sh) :
    div_up h sh = h / sh + (if h % sh = 0 then 0 else 1) := by
  obtain ⟨q, r, hr, rfl⟩ : ∃ q r, r < sh ∧ h = sh * q + r :=
    ⟨h / sh, h % sh, Nat.mod_lt _ hsh, (Nat.div_add_mod h sh).symm⟩
  have hmod : (sh * q + r) % sh = r := by rw [Nat.mul_add_mod, Nat.mod_eq_of_lt hr]
  have hdiv : (sh * q + r) / sh = q := by
    rw [Nat.mul_add_div hsh, Nat.div_eq_of_lt hr]; omega
  rcases Nat.eq_zero_or_pos r with rfl | hr0
  · have h1 : sh * q + 0 + sh - 1 = sh * q + (sh - 1) := by omega
    have h2 : (sh * q + (sh - 1)) / sh = q := by
      rw [Nat.mul_add_div hsh, Nat.div_eq_of_lt (show sh - 1 < sh by omega)]; omega
    rw [div_up, h1, h2, hdiv, hmod]
    split <;> omega
  · have hx : sh * (q + 1) = sh * q + sh := by ring
    have h1 : sh * q + r + sh - 1 = sh * (q + 1) + (r - 1) := by omega
    have h2 : (sh * (q + 1) + (r - 1)) / sh = q + 1 := by
      rw [Nat.mul_add_div hsh, Nat.div_eq_of_lt (show r - 1 < sh by omega)]
    rw [div_up, h1, h2, hdiv, hmod]
    split <;> omega

end TensorUtils

namespace TensorUtils

/-- C1: for positive heights and widths, `compute_shard_division_spec`
returns `num_shards = ceil(dim / shard_dim)` in each direction, and the
last-shard extent equals the remainder when it is non-zero and the full
shard extent on exact division (no empty trailing shard). -/
theorem compute_shard_division_spec_correct (shape shard_shape : Size)
    (hh : 0 < shape.height) (hw : 0 < shape.width)
    (hsh : 0 < shard_shape.height) (hsw : 0 < shard_shape.width) :
    (compute_shard_division_spec shape shard_shape).num_shards_height =
      shape.height / shard_shape.height +
        (if shape.height % shard_shape.height = 0 then 0 else 1) ∧
    (compute_shard_division_spec shape shard_shape).last_shard_height =
      (if shape.height % shard_shape.height = 0 then shard_shape.height
       else shape.height % shard_shape.height) ∧
    (compute_shard_division_spec shape shard_shape).num_shards_width =
      shape.width / shard_shape.width +
        (if shape.width % shard_shape.width = 0 then 0 else 1) ∧
    (compute_shard_division_spec shape shard_shape).last_shard_width =
      (if shape.width % shard_shape.width = 0 then shard_shape.width
       else shape.width % shard_shape.width) := by
  refine ⟨div_up_eq_ceil _ _ hsh, ?_, div_up_eq_ceil _ _ hsw, ?_⟩ <;>
    · simp only [compute_shard_division_spec]
      split <;> split <;> omega

/-- C1 witness: the spec's two concrete examples.  Height 100 with shard
height 32 gives 4 shards with last height 4; height 64 with shard height
32 gives 2 shards with last height 32. -/
theorem compute_shard_division_spec_correct_witness :
    ((0 < 100 ∧ 0 < 100 ∧ 0 < 32 ∧ 0 < 32) ∧
      (compute_shard_division_spec ⟨100, 100⟩ ⟨32, 32⟩).num_shards_height =
        100 / 32 + (if 100 % 32 = 0 then 0 else 1) ∧
      (compute_shard_division_spec ⟨100, 100⟩ ⟨32, 32⟩).num_shards_height = 4 ∧
      (compute_shard_division_spec ⟨100, 100⟩ ⟨32, 32⟩).last_shard_height = 4) ∧
    ((compute_shard_division_spec ⟨64, 64⟩ ⟨32, 32⟩).num_shards_height = 2 ∧
      (compute_shard_division_spec ⟨64, 64⟩ ⟨32, 32⟩).last_shard_height = 32) := by
  have h1 := compute_shard_division_spec_correct ⟨100, 100⟩ ⟨32, 32⟩
    (by decide) (by decide) (by decide) (by decide)
  have h2 := compute_shard_division_spec_correct ⟨64, 64⟩ ⟨32, 32⟩
    (by decide) (by decide) (by decide) (by decide)
  exact ⟨⟨⟨by decide, by decide, by decide, by decide⟩, h1.1, by decide, by decide⟩,
    by decide, by decide⟩

/-- C2: `copy_borrowed_tensor_in_async_mode` returns a tensor with fresh
`Owned` storage holding a copy of the borrowed elements (same tensor
spec) exactly when the worker is asynchronous, the tensor has a single
shard to populate and its storage is `Borrowed`; in every other case it
returns the input tensor unchanged.  The input is never mutated — the
embedded function is pure in its tensor argument. -/
theorem copy_borrowed_tensor_in_async_mode_spec (mode : WorkExecutorMode) (t : Tensor)
    (hs : 1 ≤ t.numShardsToBePopulated) :
    (∀ b, mode = .ASYNCHRONOUS → t.numShardsToBePopulated = 1 → t.storage = .Borrowed b →
      copy_borrowed_tensor_in_async_mode mode t =
        { storage := .Owned b, spec := t.spec, numShardsToBePopulated := 1 }) ∧
    ((mode = .SYNCHRONOUS ∨ 1 < t.numShardsToBePopulated ∨ (∀ b, t.storage ≠ .Borrowed b)) →
      copy_borrowed_tensor_in_async_mode mode t = t) := by
  constructor
  · intro b hmode hnum hstore
    simp only [copy_borrowed_tensor_in_async_mode, hmode, hnum, hstore]
    simp [storage_type]
  · intro hcase
    rcases hcase with hmode | hnum | hstore
    · simp [copy_borrowed_tensor_in_async_mode, hmode]
    · simp only [copy_borrowed_tensor_in_async_mode]
      rw [if_pos (Or.inr hnum)]
    · simp only [copy_borrowed_tensor_in_async_mode]
      split
      · rfl
      · split
        · cases hst : t.storage with
          | Borrowed b => exact absurd hst (hstore b)
          | Owned b => rfl
          | Device i => rfl
          | MultiDevice l => rfl
          | MultiDeviceHost l => rfl
        · rfl

/-- C2 witness: an async worker with a single-shard borrowed tensor gets
an owned copy. -/
theorem copy_borrowed_tensor_in_async_mode_spec_witness :
    1 ≤ (Tensor.mk (.Borrowed [1, 2, 3]) ⟨[3], .FLOAT32, .ROW_MAJOR⟩ 1).numShardsToBePopulated ∧
    copy_borrowed_tensor_in_async_mode .ASYNCHRONOUS
        (Tensor.mk (.Borrowed [1, 2, 3]) ⟨[3], .FLOAT32, .ROW_MAJOR⟩ 1) =
      Tensor.mk (.Owned [1, 2, 3]) ⟨[3], .FLOAT32, .ROW_MAJOR⟩ 1 :=
  ⟨by decide,
    (copy_borrowed_tensor_in_async_mode_spec .ASYNCHRONOUS
        (Tensor.mk (.Borrowed [1, 2, 3]) ⟨[3], .FLOAT32, .ROW_MAJOR⟩ 1)
        (by decide)).1 [1, 2, 3] rfl rfl rfl⟩

/-- C10: a single (non-multi-device) tensor whose storage is neither
`Owned` nor `Borrowed` — in particular single-device `Device` storage —
makes `convert_tensor` fail with `"Unsupported storage type"` and produce
no result. -/
theorem convert_tensor_unsupported_storage {α : Type} (compute : List Int → α) (t : Tensor)
    (hm : is_multi_device_tensor t = false)
    (ho : ∀ b, t.storage ≠ .Owned b) (hb : ∀ b, t.storage ≠ .Borrowed b) :
    convert_tensor compute t = .error "Unsupported storage type" := by
  simp only [convert_tensor, hm, Bool.false_eq_true, if_false]
  cases hst : t.storage with
  | Owned b => exact absurd hst (ho b)
  | Borrowed b => exact absurd hst (hb b)
  | Device i => rfl
  | MultiDevice l =>
      exfalso
      simp [is_multi_device_tensor, hst, storage_type] at hm
  | MultiDeviceHost l =>
      exfalso
      simp [is_multi_device_tensor, hst, storage_type] at hm

/-- On a shape segment without wildcard, the scan accumulates the zero
flag and the product and keeps the recorded wildcard index. -/
lemma reshape_scan_no_wild (l : List Int) :
    ∀ (idx : Option Nat) (hz : Bool) (nv : Int) (i : Nat), (-1 : Int) ∉ l →
      reshape_scan l idx hz nv i =
        .ok (idx, hz || l.any (fun x => decide (x = 0)), nv * l.prod) := by
  induction l with
  | nil => intro idx hz nv i _; simp [reshape_scan]
  | cons x rest ih =>
      intro idx hz nv i h
      have hx1 : ¬x = -1 := by intro hh; exact h (by simp [hh])
      have hx2 : (-1 : Int) ∉ rest := by intro hh; exact h (by simp [hh])
      simp only [reshape_scan, if_neg hx1]
      rw [ih _ _ _ _ hx2]
      simp [Bool.or_assoc, mul_assoc]

/-- On a shape with exactly one wildcard the scan succeeds, records a
wildcard position and accumulates the zero flag over all entries. -/
lemma reshape_scan_one_wild (l : List Int) :
    ∀ (hz : Bool) (nv : Int) (i : Nat), l.count (-1) = 1 →
      ∃ j nv', reshape_scan l none hz nv i =
        .ok (some j, hz || l.any (fun x => decide (x = 0)), nv') := by
  induction l with
  | nil => intro hz nv i h; simp at h
  | cons x rest ih =>
      intro hz nv i h
      by_cases hx : x = -1
      · subst hx
        have h0 : rest.count (-1) = 0 := by
          rw [List.count_cons_self] at h
          omega
        have hn : (-1 : Int) ∉ rest := List.count_eq_zero.mp h0
        simp only [reshape_scan, if_pos rfl]
        rw [reshape_scan_no_wild rest (some i) hz nv (i + 1) hn]
        exact ⟨i, nv * rest.prod, by simp⟩
      · have h1 : rest.count (-1) = 1 := by
          rw [List.count_cons_of_ne (fun hh => hx hh.symm)] at h
          exact h
        simp only [reshape_scan, if_neg hx]
        obtain ⟨j, nv', hj⟩ := ih (hz || decide (x = 0)) (nv * x) (i + 1) h1
        exact ⟨j, nv', by rw [hj]; simp [Bool.or_assoc]⟩

/-- C5: with no `-1` wildcard, `infer_dims_for_reshape` succeeds — and
returns the target shape — exactly when the target volume equals the
tensor's logical volume, and otherwise fails with the shape error
`"Invalid arguments to reshape"` (never silently truncating or padding);
the second conjunct shows the returned entries are literally the target
shape entries for any genuine (`int32`-ranged, non-negative) shape. -/
theorem infer_dims_no_wildcard (old_volume : Int) (shape : List Int)
    (h : (-1 : Int) ∉ shape) :
    (infer_dims_for_reshape old_volume shape =
      if shape.prod = old_volume then .ok (shape.map uint32_cast)
      else .error "Invalid arguments to reshape") ∧
    ((∀ x ∈ shape, 0 ≤ x ∧ x < 2 ^ 31) →
      List.map (fun n : Nat => (n : Int)) (List.map uint32_cast shape) = shape) := by
  constructor
  · simp only [infer_dims_for_reshape]
    rw [reshape_scan_no_wild shape none false 1 0 h]
    simp only [Option.isSome_none, Bool.and_false, Bool.false_eq_true, if_false, one_mul]
  · intro hrange
    rw [List.map_map]
    have hcongr : ∀ x ∈ shape, ((fun n : Nat => (n : Int)) ∘ uint32_cast) x = x := by
      intro x hx
      obtain ⟨hx0, hx31⟩ := hrange x hx
      simp only [Function.comp_apply, uint32_cast]
      rw [Int.emod_eq_of_lt hx0 (by omega)]
      exact Int.toNat_of_nonneg hx0
    rw [List.map_congr_left hcongr]
    simp

/-- C5 witness: volume-preserving target `[2, 3]` for a volume-6 tensor
succeeds and returns the target shape. -/
theorem infer_dims_no_wildcard_witness :
    ((-1 : Int) ∉ ([2, 3] : List Int)) ∧
    infer_dims_for_reshape 6 [2, 3] =
      (if ([2, 3] : List Int).prod = 6 then Except.ok (([2, 3] : List Int).map uint32_cast)
       else Except.error "Invalid arguments to reshape") ∧
    List.map (fun n : Nat => (n : Int)) (List.map uint32_cast [2, 3]) = [2, 3] :=
  ⟨by decide, (infer_dims_no_wildcard 6 [2, 3] (by decide)).1,
    (infer_dims_no_wildcard 6 [2, 3] (by decide)).2 (by decide)⟩

/-- C4: a target shape with exactly one `-1` wildcard and a zero-sized
dimension makes `infer_dims_for_reshape` fail with the explicit
zero-volume ambiguity error rather than resolving the wildcard. -/
theorem infer_dims_zero_with_wildcard (old_volume : Int) (shape : List Int)
    (h1 : shape.count (-1) = 1) (h0 : (0 : Int) ∈ shape) :
    infer_dims_for_reshape old_volume shape =
      .error "cannot reshape tensor of 0 elements: the unspecified dimension size -1 can be any value and is ambiguous" := by
  obtain ⟨j, nv', hj⟩ := reshape_scan_one_wild shape false 1 0 h1
  simp only [infer_dims_for_reshape, hj]
  have hz : shape.any (fun x => decide (x = 0)) = true := by
    rw [List.any_eq_true]
    exact ⟨0, h0, by simp⟩
  simp [hz]

/-- C4 witness: reshaping a volume-0 tensor to `(0, -1)` is rejected as
ambiguous. -/
theorem infer_dims_zero_with_wildcard_witness :
    ([0, -1] : List Int).count (-1) = 1 ∧ (0 : Int) ∈ ([0, -1] : List Int) ∧
    infer_dims_for_reshape 0 [0, -1] =
      .error "cannot reshape tensor of 0 elements: the unspecified dimension size -1 can be any value and is ambiguous" :=
  ⟨by decide, by decide, infer_dims_zero_with_wildcard 0 [0, -1] (by decide) (by decide)⟩

/-- C8: `transform` applies the per-shard function exactly once to each
shard in the tensor's declared shard order (the result's shard list is
the map of the function over the input's shard list), and the result
carries the input's storage type and distribution configuration; for a
single-shard tensor the function is applied exactly once and the result
carries identical distribution metadata with no extra multi-device
wrapping. -/
theorem transform_preserves_distribution (t : MultiDeviceTensor) (f : Tensor → Tensor) :
    (transform t f).shards = t.shards.map f ∧
    (transform t f).storageType = t.storageType ∧
    (transform t f).distConfig = t.distConfig ∧
    (∀ s, t.shards = [s] → transform t f =
      { shards := [f s], storageType := t.storageType, distConfig := t.distConfig }) := by
  refine ⟨rfl, rfl, rfl, ?_⟩
  intro s hs
  simp [transform, create_multi_device_tensor, get_tensors_from_multi_device_storage,
    get_distributed_tensor_config_from_tensor, hs]

/-- C8 witness: a single-shard multi-device tensor keeps its storage tag
and distribution configuration. -/
theorem transform_preserves_distribution_witness :
    transform
        (MultiDeviceTensor.mk [Tensor.mk (.Device 0) ⟨[2], .FLOAT32, .TILE⟩ 1]
          .MULTI_DEVICE ⟨5⟩)
        (fun x => x) =
      MultiDeviceTensor.mk [Tensor.mk (.Device 0) ⟨[2], .FLOAT32, .TILE⟩ 1]
        .MULTI_DEVICE ⟨5⟩ :=
  (transform_preserves_distribution
      (MultiDeviceTensor.mk [Tensor.mk (.Device 0) ⟨[2], .FLOAT32, .TILE⟩ 1]
        .MULTI_DEVICE ⟨5⟩)
      (fun x => x)).2.2.2
    (Tensor.mk (.Device 0) ⟨[2], .FLOAT32, .TILE⟩ 1) rfl

/-- C9: in `create_tensor_from_owned_buffer`, the non-float guard
`(output_dtype != BFLOAT8_B) || (output_dtype != BFLOAT4_B)` is true for
every dtype (no dtype equals both constants), so the
`"Unsupported output datatype"` branch is unreachable: the non-float path
always succeeds and returns the row-major→tile repacked buffer labeled
with the requested dtype — in particular for the packed `BFLOAT8_B` /
`BFLOAT4_B` requests — with no quantization pass applied (the result does
not depend on `pack_bfp8` / `pack_bfp4`). -/
theorem nonfloat_packed_guard_unreachable :
    (∀ d : DataType, nonfloat_packed_guard d = true) ∧
    (∀ (to_tile pack_bfp8 pack_bfp4 : (Nat → Int) → (Nat → Int)) (buf : Nat → Int)
        (output_dtype : DataType) (output_shape : List Nat),
      create_tensor_from_owned_buffer false to_tile pack_bfp8 pack_bfp4 buf
          output_dtype output_shape =
        .ok { shape := output_shape, dtype := output_dtype, layout := .TILE,
              data := to_tile buf }) := by
  constructor
  · intro d
    cases d <;> rfl
  · intro to_tile pack_bfp8 pack_bfp4 buf output_dtype output_shape
    cases output_dtype <;> rfl

/-- A write loop leaves untouched indices at their initial value. -/
lemma writeAll_not_mem (writes : List (Nat × Int)) :
    ∀ (init : Nat → Int) (i : Nat), (∀ p ∈ writes, p.1 ≠ i) →
      writeAll init writes i = init i := by
  induction writes with
  | nil => intro init i _; rfl
  | cons p rest ih =>
      intro init i h
      have h1 : p.1 ≠ i := h p (List.mem_cons_self p rest)
      have h2 : ∀ q ∈ rest, q.1 ≠ i := fun q hq => h q (List.mem_cons_of_mem p hq)
      show writeAll (bufSet init p.1 p.2) rest i = init i
      rw [ih _ _ h2]
      simp only [bufSet]
      rw [if_neg (fun hh : i = p.1 => h1 hh.symm)]

/-- If every write touching index `i` stores `v` and the buffer already
holds `v` there, it still holds `v` after the loop. -/
lemma writeAll_same (writes : List (Nat × Int)) :
    ∀ (init : Nat → Int) (i : Nat) (v : Int),
      (∀ p ∈ writes, p.1 = i → p.2 = v) → init i = v → writeAll init writes i = v := by
  induction writes with
  | nil => intro init i v _ h0; exact h0
  | cons p rest ih =>
      intro init i v h h0
      have h2 : ∀ q ∈ rest, q.1 = i → q.2 = v :=
        fun q hq => h q (List.mem_cons_of_mem p hq)
      show writeAll (bufSet init p.1 p.2) rest i = v
      apply ih _ _ _ h2
      by_cases hpi : p.1 = i
      · have hv : p.2 = v := h p (List.mem_cons_self p rest) hpi
        simp only [bufSet]
        rw [if_pos hpi.symm]
        exact hv
      · simp only [bufSet]
        rw [if_neg (fun hh : i = p.1 => hpi hh.symm)]
        exact h0

/-- If `(i, v)` is one of the writes and every write touching `i` stores
`v`, the loop leaves `v` at `i`. -/
lemma writeAll_mem (writes : List (Nat × Int)) :
    ∀ (init : Nat → Int) (i : Nat) (v : Int),
      (i, v) ∈ writes → (∀ p ∈ writes, p.1 = i → p.2 = v) →
      writeAll init writes i = v := by
  induction writes with
  | nil => intro init i v hm _; cases hm
  | cons p rest ih =>
      intro init i v hm h
      have h2 : ∀ q ∈ rest, q.1 = i → q.2 = v :=
        fun q hq => h q (List.mem_cons_of_mem p hq)
      show writeAll (bufSet init p.1 p.2) rest i = v
      by_cases hpi : p.1 = i
      · apply writeAll_same rest _ _ _ h2
        have hv : p.2 = v := h p (List.mem_cons_self p rest) hpi
        simp only [bufSet]
        rw [if_pos hpi.symm]
        exact hv
      · rcases List.mem_cons.mp hm with heq | hm'
        · exact absurd (congrArg Prod.fst heq.symm) hpi
        · exact ih _ _ _ hm' h2

/-- `create_tensor_from_owned_buffer` always produces a tensor: the float
path succeeds on both the packed and the direct branch, and the non-float
guard never fails. -/
lemma create_tensor_from_owned_buffer_ok (is_float_T : Bool)
    (to_tile pack_bfp8 pack_bfp4 : (Nat → Int) → (Nat → Int)) (buf : Nat → Int)
    (output_dtype : DataType) (output_shape : List Nat) :
    ∃ ct, create_tensor_from_owned_buffer is_float_T to_tile pack_bfp8 pack_bfp4 buf
        output_dtype output_shape = .ok ct := by
  cases is_float_T <;> cases output_dtype <;> exact ⟨_, rfl⟩

/-- Reduce the common wrapper on a row-major tensor whose dtype is in the
dispatch map and whose output dtype does not trip the packed-dtype
assertion. -/
lemma common_dispatch_reduce {α : Type} (dt : DataType) (od : Option DataType)
    (fm : DataType → Option (DataType → Except String α))
    (g : DataType → Except String α) (hmap : fm dt = some g)
    (hod : ∀ x, od = some x → (x = .BFLOAT8_B ∨ x = .BFLOAT4_B) → dt = .FLOAT32) :
    convert_tensor_to_tiled_layout_common dt .ROW_MAJOR od fm = g (od.getD dt) := by
  have hdisp : tiled_layout_dispatch dt od fm = g (od.getD dt) := by
    simp [tiled_layout_dispatch, hmap]
  cases od with
  | none =>
      simp only [convert_tensor_to_tiled_layout_common]
      rw [if_neg (by simp)]
      exact hdisp
  | some x =>
      simp only [convert_tensor_to_tiled_layout_common]
      rw [if_neg (by simp)]
      have hcond : ¬((x = DataType.BFLOAT8_B ∨ x = DataType.BFLOAT4_B) ∧
          dt ≠ DataType.FLOAT32) := by
        rintro ⟨hpack, hne⟩
        exact hne (hod x rfl hpack)
      show (if (x = DataType.BFLOAT8_B ∨ x = DataType.BFLOAT4_B) ∧
            dt ≠ DataType.FLOAT32 then
          Except.error "TT_ASSERT input_tensor.get_dtype() == DataType::FLOAT32"
        else tiled_layout_dispatch dt (some x) fm) = g ((some x).getD dt)
      rw [if_neg hcond]
      exact hdisp

/-- Reduce the common wrapper on a row-major tensor whose dtype is absent
from the dispatch map: the lookup fails with the
unsupported-data-type error. -/
lemma common_dispatch_unsupported {α : Type} (dt : DataType) (od : Option DataType)
    (fm : DataType → Option (DataType → Except String α)) (hmap : fm dt = none)
    (hod : ∀ x, od = some x → (x = .BFLOAT8_B ∨ x = .BFLOAT4_B) → dt = .FLOAT32) :
    convert_tensor_to_tiled_layout_common dt .ROW_MAJOR od fm =
      .error "Unsupported data type" := by
  have hdisp : tiled_layout_dispatch dt od fm = .error "Unsupported data type" := by
    simp [tiled_layout_dispatch, hmap]
  cases od with
  | none =>
      simp only [convert_tensor_to_tiled_layout_common]
      rw [if_neg (by simp)]
      exact hdisp
  | some x =>
      simp only [convert_tensor_to_tiled_layout_common]
      rw [if_neg (by simp)]
      have hcond : ¬((x = DataType.BFLOAT8_B ∨ x = DataType.BFLOAT4_B) ∧
          dt ≠ DataType.FLOAT32) := by
        rintro ⟨hpack, hne⟩
        exact hne (hod x rfl hpack)
      show (if (x = DataType.BFLOAT8_B ∨ x = DataType.BFLOAT4_B) ∧
            dt ≠ DataType.FLOAT32 then
          Except.error "TT_ASSERT input_tensor.get_dtype() == DataType::FLOAT32"
        else tiled_layout_dispatch dt (some x) fm) = .error "Unsupported data type"
      rw [if_neg hcond]
      exact hdisp

/-- C7: with a row-major input and no packed-output mismatch, a dtype
absent from the weight-conversion dispatch map (anything other than
`BFLOAT16`, `FLOAT32`, `UINT32`) makes
`convert_conv_weight_tensor_to_tiled_layout` fail with
`"Unsupported data type"` and produce no tensor. -/
theorem convert_conv_weight_unsupported_dtype
    (to_tile pack_bfp8 pack_bfp4 : (Nat → Int) → (Nat → Int))
    (input_dtype : DataType) (input_layout : Layout)
    (O Cin kH kW in1_block_h in1_block_w : Nat) (input : Nat → Int)
    (output_dtype : Option DataType)
    (hl : input_layout = .ROW_MAJOR)
    (hd : input_dtype ≠ .BFLOAT16 ∧ input_dtype ≠ .FLOAT32 ∧ input_dtype ≠ .UINT32)
    (hod : ∀ od, output_dtype = some od → ¬(od = .BFLOAT8_B ∨ od = .BFLOAT4_B)) :
    convert_conv_weight_tensor_to_tiled_layout to_tile pack_bfp8 pack_bfp4 input_dtype
      input_layout O Cin kH kW in1_block_h in1_block_w input output_dtype =
      .error "Unsupported data type" := by
  subst hl
  obtain ⟨h1, h2, h3⟩ := hd
  simp only [convert_conv_weight_tensor_to_tiled_layout]
  apply common_dispatch_unsupported
  · cases input_dtype <;>
      first
        | rfl
        | exact absurd rfl h1
        | exact absurd rfl h2
        | exact absurd rfl h3
  · exact fun x hx hpack => absurd hpack (hod x hx)

/-- C7 witness: an `INT32` weight tensor in row-major layout is rejected
with the unsupported-data-type error. -/
theorem convert_conv_weight_unsupported_dtype_witness :
    convert_conv_weight_tensor_to_tiled_layout (fun b => b) (fun b => b) (fun b => b)
      .INT32 .ROW_MAJOR 4 4 3 3 1 1 (fun i => (i : Int)) none =
      .error "Unsupported data type" :=
  convert_conv_weight_unsupported_dtype (fun b => b) (fun b => b) (fun b => b)
    .INT32 .ROW_MAJOR 4 4 3 3 1 1 (fun i => (i : Int)) none rfl
    ⟨by decide, by decide, by decide⟩ (fun _ h => Option.noConfusion h)

/-- The block-sharded weight conversion fails on one of its two
divisibility assertions when either channel count does not divide into
the shard count. -/
lemma to_weight_block_sharded_error (is_float_T : Bool)
    (to_tile pack_bfp8 pack_bfp4 : (Nat → Int) → (Nat → Int))
    (O Cin kH kW num_channel_shards : Nat) (input : Nat → Int) (od : DataType)
    (hdiv : O % num_channel_shards ≠ 0 ∨ Cin % num_channel_shards ≠ 0) :
    to_weight_tile_layout_block_sharded is_float_T to_tile pack_bfp8 pack_bfp4
        O Cin kH kW num_channel_shards input od =
      .error "TT_ASSERT weight_matrix_cols % num_channel_shards == 0" ∨
    to_weight_tile_layout_block_sharded is_float_T to_tile pack_bfp8 pack_bfp4
        O Cin kH kW num_channel_shards input od =
      .error "TT_ASSERT w_shape[1] % num_channel_shards == 0" := by
  by_cases h1 : O % num_channel_shards ≠ 0
  · left
    simp [to_weight_tile_layout_block_sharded, h1]
  · right
    have h2 : Cin % num_channel_shards ≠ 0 := hdiv.resolve_left (fun hh => h1 hh)
    simp [to_weight_tile_layout_block_sharded, h1, h2]

/-- The block-sharded bias conversion never checks divisibility (its
assert is commented out in the source) and always produces a tensor for
a `[1,1,1,b3]` bias. -/
lemma to_bias_block_sharded_ok (is_float_T : Bool)
    (to_tile pack_bfp8 pack_bfp4 : (Nat → Int) → (Nat → Int))
    (b3 num_channel_shards : Nat) (input : Nat → Int) (od : DataType) :
    ∃ ct, to_bias_tile_layout_block_sharded is_float_T to_tile pack_bfp8 pack_bfp4
        1 1 1 b3 num_channel_shards input od = .ok ct := by
  simp only [to_bias_tile_layout_block_sharded]
  rw [if_neg (by simp)]
  exact create_tensor_from_owned_buffer_ok _ _ _ _ _ _ _

/-- C6 (amended): with row-major inputs, mapped dtypes and no
packed-output mismatch, the block-sharded **weight** conversion fails
with the `TT_ASSERT` precondition naming the violated divisibility
constraint whenever the output-channel or input-channel count does not
divide into `num_channel_shards`; the block-sharded **bias** conversion,
whose divisibility assert is commented out in the source, performs no
such check and produces a tensor even when the output-channel count is
not divisible, silently using the floored per-shard width. -/
theorem block_sharded_divisibility
    (to_tile pack_bfp8 pack_bfp4 : (Nat → Int) → (Nat → Int))
    (wdtype bdtype : DataType) (wlayout blayout : Layout)
    (O Cin kH kW num_channel_shards b3 : Nat) (win bin : Nat → Int)
    (wod bod : Option DataType)
    (hwl : wlayout = .ROW_MAJOR) (hbl : blayout = .ROW_MAJOR)
    (hwd : wdtype = .BFLOAT16 ∨ wdtype = .FLOAT32 ∨ wdtype = .UINT32)
    (hbd : bdtype = .BFLOAT16 ∨ bdtype = .FLOAT32 ∨ bdtype = .UINT32)
    (hwod : ∀ x, wod = some x → (x = .BFLOAT8_B ∨ x = .BFLOAT4_B) → wdtype = .FLOAT32)
    (hbod : ∀ x, bod = some x → (x = .BFLOAT8_B ∨ x = .BFLOAT4_B) → bdtype = .FLOAT32)
    (hdiv : O % num_channel_shards ≠ 0 ∨ Cin % num_channel_shards ≠ 0)
    (hbdiv : b3 % num_channel_shards ≠ 0) :
    (convert_conv_weight_tensor_to_tiled_layout_block_sharded to_tile pack_bfp8 pack_bfp4
        wdtype wlayout O Cin kH kW num_channel_shards win wod =
          .error "TT_ASSERT weight_matrix_cols % num_channel_shards == 0" ∨
     convert_conv_weight_tensor_to_tiled_layout_block_sharded to_tile pack_bfp8 pack_bfp4
        wdtype wlayout O Cin kH kW num_channel_shards win wod =
          .error "TT_ASSERT w_shape[1] % num_channel_shards == 0") ∧
    (convert_conv_bias_tensor_to_tiled_layout_block_sharded to_tile pack_bfp8 pack_bfp4
        bdtype blayout 1 1 1 b3 num_channel_shards bin bod).isOk = true := by
  subst hwl hbl
  constructor
  · rcases hwd with hw | hw | hw <;> subst hw <;>
      · simp only [convert_conv_weight_tensor_to_tiled_layout_block_sharded]
        rw [common_dispatch_reduce _ _ _ _ rfl hwod]
        exact to_weight_block_sharded_error _ _ _ _ _ _ _ _ _ _ _ hdiv
  · rcases hbd with hb | hb | hb <;> subst hb <;>
      · simp only [convert_conv_bias_tensor_to_tiled_layout_block_sharded]
        rw [common_dispatch_reduce _ _ _ _ rfl hbod]
        obtain ⟨ct, hc⟩ := to_bias_block_sharded_ok _ _ _ _ b3 num_channel_shards bin _
        rw [hc]
        rfl

/-- C6 witness (amended claim): out-channels 3 and in-channels 4 against
2 shards trip a weight divisibility assert, while a 33-channel bias
against 2 shards converts successfully. -/
theorem block_sharded_divisibility_witness :
    ((3 % 2 ≠ 0 ∨ 4 % 2 ≠ 0) ∧ 33 % 2 ≠ 0) ∧
    ((convert_conv_weight_tensor_to_tiled_layout_block_sharded (fun b => b) (fun b => b)
        (fun b => b) .BFLOAT16 .ROW_MAJOR 3 4 1 1 2 (fun i => (i : Int)) none =
          .error "TT_ASSERT weight_matrix_cols % num_channel_shards == 0" ∨
      convert_conv_weight_tensor_to_tiled_layout_block_sharded (fun b => b) (fun b => b)
        (fun b => b) .BFLOAT16 .ROW_MAJOR 3 4 1 1 2 (fun i => (i : Int)) none =
          .error "TT_ASSERT w_shape[1] % num_channel_shards == 0") ∧
     (convert_conv_bias_tensor_to_tiled_layout_block_sharded (fun b => b) (fun b => b)
        (fun b => b) .BFLOAT16 .ROW_MAJOR 1 1 1 33 2 (fun i => (i : Int)) none).isOk =
       true) :=
  ⟨⟨Or.inl (by decide), by decide⟩,
    block_sharded_divisibility (fun b => b) (fun b => b) (fun b => b) .BFLOAT16 .BFLOAT16
      .ROW_MAJOR .ROW_MAJOR 3 4 1 1 2 33 (fun i => (i : Int)) (fun i => (i : Int))
      none none rfl rfl (Or.inl rfl) (Or.inl rfl)
      (fun _ h => Option.noConfusion h) (fun _ h => Option.noConfusion h)
      (Or.inl (by decide)) (by decide)⟩

/-- C6 counterexample to the claim as stated: the block-sharded **bias**
conversion does not fail on a 33-channel bias with 2 channel shards — it
produces a tensor. -/
theorem bias_block_sharded_no_divisibility_check :
    (convert_conv_bias_tensor_to_tiled_layout_block_sharded (fun b => b) (fun b => b)
        (fun b => b) .BFLOAT16 .ROW_MAJOR 1 1 1 33 2 (fun i => (i : Int)) none).isOk =
      true := by
  rfl

/-- Closed form of the flat row-major index for a 4-coordinate and the
strides of a 4-dimensional shape. -/
lemma compute_flat_indices_four (a b c d A B C D : Nat) :
    compute_flat_indices [a, b, c, d] (compute_strides [A, B, C, D]) =
      ((a * B + b) * C + c) * D + d := by
  simp [compute_flat_indices, compute_strides]
  ring

lemma mixed_radix_div (q r D : Nat) (h : r < D) : (q * D + r) / D = q := by
  rw [Nat.mul_comm q D, Nat.mul_add_div (by omega) , Nat.div_eq_of_lt h]
  omega

lemma mixed_radix_mod (q r D : Nat) (h : r < D) : (q * D + r) % D = r := by
  rw [Nat.mul_comm q D, Nat.mul_add_mod, Nat.mod_eq_of_lt h]

/-- Quotient/remainder decomposition is unique. -/
lemma mixed_radix_inj (D q1 r1 q2 r2 : Nat) (h1 : r1 < D) (h2 : r2 < D)
    (h : q1 * D + r1 = q2 * D + r2) : q1 = q2 ∧ r1 = r2 := by
  constructor
  · rw [← mixed_radix_div q1 r1 D h1, h, mixed_radix_div q2 r2 D h2]
  · rw [← mixed_radix_mod q1 r1 D h1, h, mixed_radix_mod q2 r2 D h2]

/-- The 4-dimensional flat index is injective on in-range coordinates. -/
lemma flat4_inj (B C D a b c d a' b' c' d' : Nat)
    (hb : b < B) (hc : c < C) (hd : d < D)
    (hb' : b' < B) (hc' : c' < C) (hd' : d' < D)
    (h : ((a * B + b) * C + c) * D + d = ((a' * B + b') * C + c') * D + d') :
    a = a' ∧ b = b' ∧ c = c' ∧ d = d' := by
  obtain ⟨h1, hdd⟩ := mixed_radix_inj D _ _ _ _ hd hd' h
  obtain ⟨h2, hcc⟩ := mixed_radix_inj C _ _ _ _ hc hc' h1
  obtain ⟨h3, hbb⟩ := mixed_radix_inj B _ _ _ _ hb hb' h2
  exact ⟨h3, hbb, hcc, hdd⟩

/-- Membership characterization of the grouped-weight write list. -/
lemma grouped_writes_elem (O C kH kW G : Nat) (input : Nat → Int) (p : Nat × Int) :
    p ∈ grouped_writes O C kH kW G input ↔
    ∃ k' j' r' s', k' < O ∧ j' < C ∧ r' < kH ∧ s' < kW ∧
      p = (compute_flat_indices [k', min (k' / (O / G)) (G - 1) * C + j', r', s']
             (compute_strides [O, C * G, kH, kW]),
           input (compute_flat_indices [k', j', r', s']
             (compute_strides [O, C, kH, kW]))) := by
  simp only [grouped_writes, List.mem_flatMap, List.mem_map, List.mem_range]
  constructor
  · rintro ⟨k', hk', j', hj', r', hr', s', hs', rfl⟩
    exact ⟨k', j', r', s', hk', hj', hr', hs', rfl⟩
  · rintro ⟨k', j', r', s', hk', hj', hr', hs', rfl⟩
    exact ⟨k', hk', j', hj', r', hr', s', hs', rfl⟩

/-- The remapped channel index stays inside the widened channel
dimension. -/
lemma grouped_channel_bound (O C G k' j' : Nat) (hG : 1 ≤ G) (hj : j' < C) :
    min (k' / (O / G)) (G - 1) * C + j' < C * G := by
  have h1 : min (k' / (O / G)) (G - 1) * C ≤ (G - 1) * C :=
    Nat.mul_le_mul_right _ (min_le_right _ _)
  have h2 : (G - 1) * C + C = G * C := by
    cases G with
    | zero => omega
    | succ g => simp [Nat.succ_sub_one]; ring
  have h3 : G * C = C * G := Nat.mul_comm G C
  omega

/-- C3: `convert_conv_weight_tensor_to_grouped_layout` with
`num_groups ≥ 1` produces the shape `[O, C * num_groups, kH, kW]`, and at
every in-range output coordinate `(k, c, r, s)` the element equals the
original slice element when `c` lies in the window of width `C` starting
at `group_id * C` — `group_id = min(k / (O / num_groups), num_groups - 1)`
— and zero everywhere else. -/
theorem grouped_layout_spec (O C kH kW G : Nat) (input : Nat → Int) (hG : 1 ≤ G)
    (k c r s : Nat) (hk : k < O) (hc : c < C * G) (hr : r < kH) (hs : s < kW) :
    (convert_conv_weight_tensor_to_grouped_layout O C kH kW G input).1 =
      [O, C * G, kH, kW] ∧
    ((convert_conv_weight_tensor_to_grouped_layout O C kH kW G input).2
        (compute_flat_indices [k, c, r, s] (compute_strides [O, C * G, kH, kW])) =
      if min (k / (O / G)) (G - 1) * C ≤ c ∧
          c < min (k / (O / G)) (G - 1) * C + C then
        input (compute_flat_indices [k, c - min (k / (O / G)) (G - 1) * C, r, s]
          (compute_strides [O, C, kH, kW]))
      else 0) := by
  refine ⟨rfl, ?_⟩
  show conv_group_weight_zero_pad_helper O C kH kW G input
      (compute_flat_indices [k, c, r, s] (compute_strides [O, C * G, kH, kW])) = _
  simp only [conv_group_weight_zero_pad_helper]
  by_cases hin : min (k / (O / G)) (G - 1) * C ≤ c ∧
      c < min (k / (O / G)) (G - 1) * C + C
  · rw [if_pos hin]
    apply writeAll_mem
    · rw [grouped_writes_elem]
      refine ⟨k, c - min (k / (O / G)) (G - 1) * C, r, s, hk, by omega, hr, hs, ?_⟩
      have hc' : min (k / (O / G)) (G - 1) * C +
          (c - min (k / (O / G)) (G - 1) * C) = c := by omega
      rw [hc']
    · rintro p hp hpfst
      rw [grouped_writes_elem] at hp
      obtain ⟨k', j', r', s', hk', hj', hr', hs', rfl⟩ := hp
      have hpfst' :
          compute_flat_indices [k', min (k' / (O / G)) (G - 1) * C + j', r', s']
              (compute_strides [O, C * G, kH, kW]) =
            compute_flat_indices [k, c, r, s] (compute_strides [O, C * G, kH, kW]) :=
        hpfst
      rw [compute_flat_indices_four, compute_flat_indices_four] at hpfst'
      obtain ⟨hkk, hcc, hrr, hss⟩ :=
        flat4_inj (C * G) kH kW k' (min (k' / (O / G)) (G - 1) * C + j') r' s' k c r s
          (grouped_channel_bound O C G k' j' hG hj') hr' hs' hc hr hs hpfst'
      have hj'' : j' = c - min (k / (O / G)) (G - 1) * C := by
        rw [hkk] at hcc
        omega
      show input (compute_flat_indices [k', j', r', s'] (compute_strides [O, C, kH, kW])) = _
      rw [hkk, hrr, hss, hj'']
  · rw [if_neg hin]
    rw [writeAll_not_mem (grouped_writes O C kH kW G input) (fun _ => 0) _ ?hno]
    case hno =>
      rintro p hp
      rw [grouped_writes_elem] at hp
      obtain ⟨k', j', r', s', hk', hj', hr', hs', rfl⟩ := hp
      intro hpfst
      have hpfst' :
          compute_flat_indices [k', min (k' / (O / G)) (G - 1) * C + j', r', s']
              (compute_strides [O, C * G, kH, kW]) =
            compute_flat_indices [k, c, r, s] (compute_strides [O, C * G, kH, kW]) :=
        hpfst
      rw [compute_flat_indices_four, compute_flat_indices_four] at hpfst'
      obtain ⟨hkk, hcc, hrr, hss⟩ :=
        flat4_inj (C * G) kH kW k' (min (k' / (O / G)) (G - 1) * C + j') r' s' k c r s
          (grouped_channel_bound O C G k' j' hG hj') hr' hs' hc hr hs hpfst'
      rw [hkk] at hcc
      omega

/-- C3 witness: the spec's example `out_channels=4, in_channels_per_group=2,
groups=2` at output channel 2, input channel 3 (inside group 1's window at
offset 2) reads the original slice element; the shape doubles the channel
dimension. -/
theorem grouped_layout_spec_witness :
    (1 ≤ 2 ∧ 2 < 4 ∧ 3 < 2 * 2 ∧ 0 < 1) ∧
    (convert_conv_weight_tensor_to_grouped_layout 4 2 1 1 2 (fun i => (i : Int) + 1)).1 =
      [4, 2 * 2, 1, 1] ∧
    ((convert_conv_weight_tensor_to_grouped_layout 4 2 1 1 2 (fun i => (i : Int) + 1)).2
        (compute_flat_indices [2, 3, 0, 0] (compute_strides [4, 2 * 2, 1, 1])) =
      if min (2 / (4 / 2)) (2 - 1) * 2 ≤ 3 ∧
          3 < min (2 / (4 / 2)) (2 - 1) * 2 + 2 then
        (fun i => (i : Int) + 1) (compute_flat_indices
          [2, 3 - min (2 / (4 / 2)) (2 - 1) * 2, 0, 0] (compute_strides [4, 2, 1, 1]))
      else 0) :=
  ⟨⟨by decide, by decide, by decide, by decide⟩,
    (grouped_layout_spec 4 2 1 1 2 (fun i => (i : Int) + 1) (by decide) 2 3 0 0
      (by decide) (by decide) (by decide) (by decide)).1,
    (grouped_layout_spec 4 2 1 1 2 (fun i => (i : Int) + 1) (by decide) 2 3 0 0
      (by decide) (by decide) (by decide) (by decide)).2⟩

/-- C10 witness: converting a single-device (`Device`-storage) tensor
fails with the unsupported-storage error. -/
theorem convert_tensor_unsupported_storage_witness :
    convert_tensor (fun b => b) (Tensor.mk (.Device 7) ⟨[2, 3], .FLOAT32, .ROW_MAJOR⟩ 1) =
      .error "Unsupported storage type" :=
  convert_tensor_unsupported_storage (fun b => b)
    (Tensor.mk (.Device 7) ⟨[2, 3], .FLOAT32, .ROW_MAJOR⟩ 1)
    (by decide) (fun _ h => Storage.noConfusion h) (fun _ h => Storage.noConfusion h)

end TensorUtils
